import Mathlib

/-!
Shallow embedding of the client state manager of the StudioAINewsreader2
repository (frontend `index.tsx`, multi-article variant, together with the
single-article variant embedded in the repository README).

DOM rendering (`render`, `renderArticles`), button enable/disable and the
settings-modal display style are out of scope; the modal's open/closed state
and the blocking `alert` notifications are kept, as the claims mention them.
`localStorage` is modelled by two typed slots (`storedArticles`,
`storedSettings`): for the records stored here a `JSON.stringify` /
`JSON.parse` round trip is the identity, so "the stored string equals the
serialization of the list" is modelled as "the stored list equals the list".
The asynchronous `handleSummarize` is split at its single `await` boundary
into a synchronous start phase and a completion phase; the ghost field
`pending` records which article ids have an outstanding summarization call.
-/

namespace Newsreader

/-- The `Article` interface of `index.tsx` (lines 12-19): `summary` is an
optional string, `isSummarizing` a transient boolean. -/
structure Article where
  id : String
  title : String
  content : String
  source : String
  summary : Option String := none
  isSummarizing : Bool := false
deriving DecidableEq

/-- The `BackendSettings` interface of `index.tsx` (lines 21-24). -/
structure BackendSettings where
  url : String
  key : String
deriving DecidableEq

/-- An outbound request to the summarization API, as issued by
`handleSummarize` (`ai.models.generateContent`): a prompt and a model id. -/
structure SummarizeRequest where
  prompt : String
  model : String
deriving DecidableEq

/-- The client state: the two module-level variables `articles` and
`backendSettings`, the two `localStorage` keys, the log of `alert`
notifications, the settings-modal visibility, and the ghost list of article
ids with an outstanding summarization call. -/
structure AppState where
  articles : List Article
  backendSettings : Option BackendSettings
  storedArticles : Option (List Article)
  storedSettings : Option BackendSettings
  alerts : List String
  modalOpen : Bool
  pending : List String
deriving DecidableEq

/-- `saveState` (`index.tsx` lines 190-195): write the article list under its
key; write the settings under theirs only when settings are non-null. -/
def saveState (s : AppState) : AppState :=
  let s₁ := { s with storedArticles := some s.articles }
  match s₁.backendSettings with
  | some bs => { s₁ with storedSettings := some bs }
  | none => s₁

/-- The filter of `addArticles` (`index.tsx` lines 170-172): keep incoming
articles whose `source` matches no existing article's `source`. -/
def uniqueNewArticles (existing newArts : List Article) : List Article :=
  newArts.filter fun newArt => !(existing.any fun ex => ex.source == newArt.source)

/-- `addArticles` (`index.tsx` lines 168-182): filter incoming articles
against existing sources; if nothing survives, alert and return without
saving; otherwise `unshift` the survivors (prepend, preserving their order),
save, render. -/
def addArticles (newArts : List Article) (s : AppState) : AppState :=
  let unique := uniqueNewArticles s.articles newArts
  if unique.isEmpty then
    { s with alerts := s.alerts ++ ["No new articles found from this source."] }
  else
    saveState { s with articles := unique ++ s.articles }

/-- `addArticle` of the single-article variant (README lines 204-208):
`articles.unshift(article)`, then save and render. -/
def addArticle (article : Article) (s : AppState) : AppState :=
  saveState { s with articles := article :: s.articles }

/-- `removeArticle` (`index.tsx` lines 184-188): filter out the matching id,
save, render. -/
def removeArticle (articleId : String) (s : AppState) : AppState :=
  saveState { s with articles := s.articles.filter fun a => !(a.id == articleId) }

/-- Update the first element satisfying `p` (the object returned by
`Array.prototype.find`, mutated in place by `handleSummarize`). -/
def updateFirst (p : Article → Bool) (f : Article → Article) : List Article → List Article
  | [] => []
  | a :: as => if p a then f a :: as else a :: updateFirst p f as

/-- The prompt template of `handleSummarize` in `index.tsx` (line 104). -/
def mkPrompt (a : Article) : String :=
  "Summarize the following web article in a concise paragraph:\n\n---\n\nTitle: "
    ++ a.title ++ "\n\n" ++ a.content

/-- The model identifier passed to `generateContent` (`index.tsx` line 106). -/
def geminiModel : String := "gemini-2.5-flash"

/-- Synchronous prefix of `handleSummarize` (`index.tsx` lines 96-108, up to
the `await`): look up the article; return without any call if it is absent or
already summarizing; otherwise set its `isSummarizing` flag, render, and issue
the summarization request (returned in the second component; the id joins
`pending` while the call is outstanding). -/
def handleSummarizeStart (articleId : String) (s : AppState) :
    AppState × Option SummarizeRequest :=
  match s.articles.find? (fun a => a.id == articleId) with
  | none => (s, none)
  | some article =>
    if article.isSummarizing then (s, none)
    else
      ({ s with
          articles := updateFirst (fun a => a.id == articleId)
            (fun a => { a with isSummarizing := true }) s.articles,
          pending := s.pending ++ [articleId] },
        some { prompt := mkPrompt article, model := geminiModel })

/-- Continuation of `handleSummarize` after the `await` (`index.tsx` lines
110-119): on success (`some text`) store the trimmed response text as the
summary; on failure (`none`) log and alert; in either case (`finally`) clear
the `isSummarizing` flag, save state, render. Mutations act on the object
found at start, i.e. on the first article with this id still in the list. -/
def handleSummarizeComplete (articleId : String) (result : Option String)
    (s : AppState) : AppState :=
  let s₁ :=
    match result with
    | some text =>
      { s with
          articles := updateFirst (fun a => a.id == articleId)
            (fun a => { a with summary := some text.trim }) s.articles }
    | none =>
      { s with
          alerts := s.alerts ++
            ["Could not summarize the article. Please check the console for details."] }
  saveState
    { s₁ with
        articles := updateFirst (fun a => a.id == articleId)
          (fun a => { a with isSummarizing := false }) s₁.articles,
        pending := s₁.pending.erase articleId }

/-- A whole `handleSummarize` run with no interleaved operation: the start
phase followed, when a call was issued, by the completion phase with the
call's outcome (`some text` on success, `none` on failure). -/
def handleSummarizeFull (articleId : String) (result : Option String)
    (s : AppState) : AppState :=
  match handleSummarizeStart articleId s with
  | (s₁, some _) => handleSummarizeComplete articleId result s₁
  | (s₁, none) => s₁

/-- The configuration guard of `fetchArticlesFromSource` (`index.tsx` line
123): `!backendSettings?.url || !backendSettings?.key` — null settings or an
empty (falsy) url or key count as not configured. -/
def backendConfigured (s : AppState) : Bool :=
  match s.backendSettings with
  | none => false
  | some bs => !(bs.url == "") && !(bs.key == "")

/-- Guard prefix of `fetchArticlesFromSource` (`index.tsx` lines 122-127):
with unconfigured settings, alert, open the settings modal and return with no
network call (second component `false`); otherwise the network request
proceeds (second component `true`; its response handling is outside the
modelled scope of the claims). -/
def fetchArticlesFromSource (s : AppState) : AppState × Bool :=
  if backendConfigured s then (s, true)
  else
    ({ s with
        alerts := s.alerts ++
          ["Backend settings are not configured. Please configure them first."],
        modalOpen := true }, false)

/-- `saveSettings` (`index.tsx` lines 218-227): overwrite the settings with
the trimmed inputs, save, close the modal, alert. -/
def saveSettings (url key : String) (s : AppState) : AppState :=
  let s₁ := saveState { s with backendSettings := some { url := url.trim, key := key.trim } }
  { s₁ with modalOpen := false, alerts := s₁.alerts ++ ["Settings saved successfully."] }

/-- `loadState` (`index.tsx` lines 197-209): read the stored article list,
resetting every `isSummarizing` flag to `false`; read the stored settings
when present. -/
def loadState (s : AppState) : AppState :=
  let articles₁ :=
    match s.storedArticles with
    | some l => l.map (fun (a : Article) => { a with isSummarizing := false })
    | none => s.articles
  let settings₁ :=
    match s.storedSettings with
    | some bs => some bs
    | none => s.backendSettings
  { s with articles := articles₁, backendSettings := settings₁ }

/-- The operations of the store run to completion, one after another, as in a
serialized user session: an add batch, a removal, or a whole summarize run
(start immediately followed by its outcome when a call was issued). -/
inductive AtomicOp where
  | add (newArts : List Article)
  | remove (id : String)
  | summarize (id : String) (result : Option String)
deriving DecidableEq

/-- Run one serialized operation. -/
def runAtomic : AtomicOp → AppState → AppState
  | .add l, s => addArticles l s
  | .remove id, s => removeArticle id s
  | .summarize id r, s => handleSummarizeFull id r s

/-- Run a sequence of serialized operations. -/
def runAtomicOps : List AtomicOp → AppState → AppState
  | [], s => s
  | op :: ops, s => runAtomicOps ops (runAtomic op s)

/-- Fine-grained event-loop steps, where a summarization call's start and its
completion are separate events with arbitrary interleaving in between. A
completion event only fires for an id with an outstanding call. -/
inductive Op where
  | add (newArts : List Article)
  | remove (id : String)
  | summarizeBegin (id : String)
  | summarizeResult (id : String) (result : Option String)
  | fetchAttempt
  | configure (url key : String)
deriving DecidableEq

/-- Run one event-loop step. -/
def step : Op → AppState → AppState
  | .add l, s => addArticles l s
  | .remove id, s => removeArticle id s
  | .summarizeBegin id, s => (handleSummarizeStart id s).1
  | .summarizeResult id r, s =>
    if id ∈ s.pending then handleSummarizeComplete id r s else s
  | .fetchAttempt, s => (fetchArticlesFromSource s).1
  | .configure u k, s => saveSettings u k s

/-- Run a sequence of event-loop steps. -/
def runSteps : List Op → AppState → AppState
  | [], s => s
  | op :: ops, s => runSteps ops (step op s)

/-- No drift: the stored article snapshot equals the in-memory list. -/
def persistedMatches (s : AppState) : Prop :=
  s.storedArticles = some s.articles

instance (s : AppState) : Decidable (persistedMatches s) := by
  unfold persistedMatches; infer_instance

/-- The stored snapshot contains an article whose `isSummarizing` flag is set. -/
def storedHasActiveFlag (s : AppState) : Bool :=
  List.any (s.storedArticles.getD []) Article.isSummarizing

/-- The prompt template as the specification words it, for comparison with
the template actually found in `index.tsx`. -/
def specPrompt (title content : String) : String :=
  "Summarize the following article in a concise paragraph:\n\n---\n\nTitle: "
    ++ title ++ "\n\n" ++ content

/-- A fresh state, as at first startup with empty storage. -/
def initialState : AppState :=
  { articles := [], backendSettings := none, storedArticles := none,
    storedSettings := none, alerts := [], modalOpen := false, pending := [] }

/-- A concrete article used by the witnesses. -/
def artA : Article :=
  { id := "a1", title := "A", content := "B", source := "http://one" }

/-- A second concrete article, same source as `artA`. -/
def artB : Article :=
  { id := "b1", title := "C", content := "D", source := "http://one" }

/-- A third concrete article with a distinct source. -/
def artC : Article :=
  { id := "c1", title := "E", content := "F", source := "http://two" }

/-- A consistent state holding just `artA`, with its snapshot persisted. -/
def stateA : AppState :=
  { articles := [artA], backendSettings := none, storedArticles := some [artA],
    storedSettings := none, alerts := [], modalOpen := false, pending := [] }

/-- A consistent state holding just `artC`, with its snapshot persisted. -/
def stateC : AppState :=
  { articles := [artC], backendSettings := none, storedArticles := some [artC],
    storedSettings := none, alerts := [], modalOpen := false, pending := [] }

/-- A started-up state whose stored snapshot holds a copy of `artA` with its
`isSummarizing` flag stuck at `true` (as persisted by a save performed while
a summarization call was outstanding). -/
def stateDirty : AppState :=
  { articles := [], backendSettings := none,
    storedArticles := some [{ artA with isSummarizing := true }],
    storedSettings := none, alerts := [], modalOpen := false, pending := [] }

/-- The `isSummarizing` flag of this article is clear. -/
def flagClear (a : Article) : Bool := !(a.isSummarizing)

/-! ### Helper lemmas -/

theorem saveState_articles (s : AppState) : (saveState s).articles = s.articles := by
  unfold saveState
  cases s.backendSettings <;> rfl

theorem saveState_persisted (s : AppState) : (saveState s).storedArticles = some s.articles := by
  unfold saveState
  cases s.backendSettings <;> rfl

theorem saveState_alerts (s : AppState) : (saveState s).alerts = s.alerts := by
  unfold saveState
  cases s.backendSettings <;> rfl

theorem persistedMatches_saveState (s : AppState) : persistedMatches (saveState s) := by
  unfold persistedMatches
  rw [saveState_articles, saveState_persisted]

theorem addArticles_articles (l : List Article) (s : AppState) :
    (addArticles l s).articles = uniqueNewArticles s.articles l ++ s.articles := by
  unfold addArticles
  by_cases h : (uniqueNewArticles s.articles l).isEmpty
  · simp only [h, if_true]
    rw [List.isEmpty_iff] at h
    simp [h]
  · simp [h, saveState_articles]

theorem find?_updateFirst (p : Article → Bool) (f : Article → Article)
    (hp : ∀ a, p (f a) = p a) (l : List Article) :
    (updateFirst p f l).find? p = (l.find? p).map f := by
  induction l with
  | nil => rfl
  | cons a as ih =>
    by_cases ha : p a
    · simp [updateFirst, ha, List.find?, hp a]
    · simp only [updateFirst, ha, if_false]
      rw [List.find?]
      simp only [ha, Bool.false_eq_true, if_false]
      rw [List.find?]
      simp only [ha, Bool.false_eq_true, if_false, ih]

theorem handleSummarizeStart_issues (articleId : String) (s : AppState) (a : Article)
    (hfind : s.articles.find? (fun x => x.id == articleId) = some a)
    (hflag : a.isSummarizing = false) :
    handleSummarizeStart articleId s =
      ({ s with
          articles := updateFirst (fun x => x.id == articleId)
            (fun x => { x with isSummarizing := true }) s.articles,
          pending := s.pending ++ [articleId] },
        some { prompt := mkPrompt a, model := geminiModel }) := by
  unfold handleSummarizeStart
  rw [hfind]
  simp [hflag]

theorem handleSummarizeStart_none_eq (articleId : String) (s s₁ : AppState)
    (h : handleSummarizeStart articleId s = (s₁, none)) : s₁ = s := by
  unfold handleSummarizeStart at h
  cases hfind : s.articles.find? (fun x => x.id == articleId) with
  | none =>
    rw [hfind] at h
    exact (Prod.mk.injEq .. ▸ h).1.symm
  | some a =>
    rw [hfind] at h
    dsimp only at h
    by_cases hflag : a.isSummarizing
    · rw [if_pos hflag] at h
      exact (Prod.mk.injEq .. ▸ h).1.symm
    · rw [if_neg hflag] at h
      exact absurd (Prod.mk.injEq .. ▸ h).2 (by simp)

theorem persistedMatches_handleSummarizeComplete (articleId : String)
    (result : Option String) (s : AppState) :
    persistedMatches (handleSummarizeComplete articleId result s) := by
  unfold handleSummarizeComplete
  cases result <;> exact persistedMatches_saveState _

theorem persistedMatches_runAtomic (op : AtomicOp) (s : AppState)
    (h : persistedMatches s) : persistedMatches (runAtomic op s) := by
  cases op with
  | add l =>
    show persistedMatches (addArticles l s)
    unfold addArticles
    by_cases he : (uniqueNewArticles s.articles l).isEmpty
    · simpa [he, persistedMatches] using h
    · simp only [he, Bool.false_eq_true, if_false]
      exact persistedMatches_saveState _
  | remove articleId =>
    show persistedMatches (removeArticle articleId s)
    unfold removeArticle
    exact persistedMatches_saveState _
  | summarize articleId r =>
    show persistedMatches (handleSummarizeFull articleId r s)
    unfold handleSummarizeFull
    cases hs : handleSummarizeStart articleId s with
    | mk s₁ o =>
      cases o with
      | none =>
        rw [handleSummarizeStart_none_eq articleId s s₁ hs]
        exact h
      | some req =>
        exact persistedMatches_handleSummarizeComplete articleId r s₁

theorem loadState_articles (s : AppState) (l : List Article)
    (h : s.storedArticles = some l) :
    (loadState s).articles = l.map (fun (a : Article) => { a with isSummarizing := false }) := by
  unfold loadState
  rw [h]

/-! ### Claim theorems -/

/-- Claim C9: every add operation prepends the newly added article(s): after
the operation they occupy the head of the list, in their incoming order, and
every previously present article follows in its prior relative order
unchanged (single-article variant `addArticle` and multi-article variant
`addArticles`, whose added articles are the source-filtered survivors). -/
theorem claim_C9_prepend_newest_first (a : Article) (l : List Article) (s : AppState) :
    (addArticle a s).articles = a :: s.articles ∧
    (addArticles l s).articles = uniqueNewArticles s.articles l ++ s.articles := by
  constructor
  · unfold addArticle
    rw [saveState_articles]
  · exact addArticles_articles l s

/-- Claim C10: in the multi-article variant, deduplication compares incoming
articles only against the pre-existing list, never against each other: when
no existing article shares a source with any batch member, the whole batch is
added, even if batch members share a source among themselves. -/
theorem claim_C10_dedup_ignores_batch (l : List Article) (s : AppState)
    (h : ∀ a ∈ l, ∀ e ∈ s.articles, e.source ≠ a.source) :
    (addArticles l s).articles = l ++ s.articles := by
  rw [addArticles_articles]
  have hu : uniqueNewArticles s.articles l = l := by
    unfold uniqueNewArticles
    rw [List.filter_eq_self]
    intro a ha
    rw [Bool.not_eq_true', List.any_eq_false]
    intro e he
    simp only [beq_iff_eq]
    exact h a ha e he
  rw [hu]

/-- Witness for C10: a batch of two articles sharing the source
`"http://one"` added to a list whose only article has source `"http://two"`;
both batch members are added. -/
theorem claim_C10_witness :
    (addArticles [artA, artB] stateC).articles = [artA, artB] ++ stateC.articles :=
  claim_C10_dedup_ignores_batch [artA, artB] stateC (by decide)

/-- Claim C6: removing an id absent from the list leaves the list's length
and contents unchanged while still rewriting the persisted snapshot, which
therefore equals the unchanged list. -/
theorem claim_C6_remove_absent_is_noop (articleId : String) (s : AppState)
    (h : ∀ a ∈ s.articles, a.id ≠ articleId) :
    (removeArticle articleId s).articles = s.articles ∧
    (removeArticle articleId s).storedArticles = some s.articles := by
  have hfilter : (s.articles.filter fun a => !(a.id == articleId)) = s.articles := by
    rw [List.filter_eq_self]
    intro a ha
    simp [h a ha]
  unfold removeArticle
  refine ⟨?_, ?_⟩
  · rw [saveState_articles]
    exact hfilter
  · rw [saveState_persisted]
    simp only [hfilter]

/-- Witness for C6: removing the id `"zz"`, absent from `stateA`. -/
theorem claim_C6_witness :
    (removeArticle "zz" stateA).articles = stateA.articles ∧
    (removeArticle "zz" stateA).storedArticles = some stateA.articles :=
  claim_C6_remove_absent_is_noop "zz" stateA (by decide)

/-- Claim C7: a URL ingestion attempt with unset or incomplete backend
settings performs no network call, notifies the user, opens the configuration
modal, and leaves the article list and the persisted state unchanged. -/
theorem claim_C7_unconfigured_fetch_blocked (s : AppState)
    (h : backendConfigured s = false) :
    (fetchArticlesFromSource s).2 = false ∧
    (fetchArticlesFromSource s).1.articles = s.articles ∧
    (fetchArticlesFromSource s).1.storedArticles = s.storedArticles ∧
    (fetchArticlesFromSource s).1.modalOpen = true ∧
    (fetchArticlesFromSource s).1.alerts =
      s.alerts ++ ["Backend settings are not configured. Please configure them first."] := by
  unfold fetchArticlesFromSource
  simp [h]

/-- Witness for C7: a fetch attempt on the fresh state, whose settings are
null. -/
theorem claim_C7_witness :
    (fetchArticlesFromSource initialState).2 = false ∧
    (fetchArticlesFromSource initialState).1.articles = initialState.articles ∧
    (fetchArticlesFromSource initialState).1.storedArticles = initialState.storedArticles ∧
    (fetchArticlesFromSource initialState).1.modalOpen = true ∧
    (fetchArticlesFromSource initialState).1.alerts = initialState.alerts ++
      ["Backend settings are not configured. Please configure them first."] :=
  claim_C7_unconfigured_fetch_blocked initialState (by decide)

/-- Claim C4: in the multi-article variant, an incoming article whose source
equals the source of an article already in the list is never among the added
articles; and when every incoming article is filtered out this way, the state
is unchanged except for the alert informing the caller that no new articles
were found (in particular the list is unchanged). -/
theorem claim_C4_existing_source_filtered (l : List Article) (s : AppState) :
    (∀ a ∈ l, (∃ e ∈ s.articles, e.source = a.source) →
      a ∉ uniqueNewArticles s.articles l) ∧
    ((∀ a ∈ l, ∃ e ∈ s.articles, e.source = a.source) →
      addArticles l s =
        { s with alerts := s.alerts ++ ["No new articles found from this source."] }) := by
  constructor
  · intro a _ ⟨e, he, hsrc⟩ hmem
    unfold uniqueNewArticles at hmem
    rw [List.mem_filter] at hmem
    have : s.articles.any (fun ex => ex.source == a.source) = true := by
      rw [List.any_eq_true]
      exact ⟨e, he, by simp [hsrc]⟩
    simp [this] at hmem
  · intro hall
    have hempty : uniqueNewArticles s.articles l = [] := by
      unfold uniqueNewArticles
      rw [List.filter_eq_nil_iff]
      intro a ha
      obtain ⟨e, he, hsrc⟩ := hall a ha
      have : s.articles.any (fun ex => ex.source == a.source) = true := by
        rw [List.any_eq_true]
        exact ⟨e, he, by simp [hsrc]⟩
      simp [this]
    unfold addArticles
    simp [hempty]

/-- Witness for C4: a batch of two articles whose source `"http://one"`
matches the only article of `stateA`; neither is added, the caller is
alerted. -/
theorem claim_C4_witness :
    addArticles [artB, { artA with id := "x1" }] stateA =
      { stateA with alerts := stateA.alerts ++ ["No new articles found from this source."] } :=
  (claim_C4_existing_source_filtered [artB, { artA with id := "x1" }] stateA).2 (by decide)

/-- Claim C1: for every sequence of add/remove/summarize operations, run
serially (each operation, including the full summarization round trip,
completes before the next begins), starting from a state where the persisted
article snapshot equals the in-memory list, after each operation the stored
snapshot again equals the in-memory list — including operations that fail
(a summarization whose call errors, an add batch fully filtered out) or
change nothing (removing an absent id). Since every prefix of a sequence is
itself a sequence, this gives the equality after each intermediate operation
as well. -/
theorem claim_C1_no_persistence_drift (ops : List AtomicOp) (s : AppState)
    (h : persistedMatches s) : persistedMatches (runAtomicOps ops s) := by
  induction ops generalizing s with
  | nil => exact h
  | cons op ops ih => exact ih (runAtomic op s) (persistedMatches_runAtomic op s h)

/-- Witness for C1: from the consistent state `stateA`, run an add, a failing
summarize, a fully-filtered add, a removal and a no-op removal; the snapshot
matches throughout. -/
theorem claim_C1_witness :
    persistedMatches stateA ∧
    persistedMatches (runAtomicOps
      [AtomicOp.add [artC], AtomicOp.summarize "a1" none, AtomicOp.add [artB],
        AtomicOp.remove "a1", AtomicOp.remove "zz"] stateA) :=
  ⟨by decide, claim_C1_no_persistence_drift
    [AtomicOp.add [artC], AtomicOp.summarize "a1" none, AtomicOp.add [artB],
      AtomicOp.remove "a1", AtomicOp.remove "zz"] stateA (by decide)⟩

/-- Claim C2: when a first summarize invocation on an article has issued its
outbound call (and is therefore still outstanding), a second invocation on
the same id returns synchronously with no outbound summarization call
(`none`) and with the state unchanged — so two rapid summarize invocations
on the same article produce exactly one outbound summarization call. -/
theorem claim_C2_second_summarize_rejected (articleId : String) (s s₁ : AppState)
    (req : SummarizeRequest)
    (h : handleSummarizeStart articleId s = (s₁, some req)) :
    handleSummarizeStart articleId s₁ = (s₁, none) := by
  unfold handleSummarizeStart at h
  cases hfind : s.articles.find? (fun x => x.id == articleId) with
  | none =>
    rw [hfind] at h
    exact absurd (Prod.mk.injEq .. ▸ h).2 (by simp)
  | some a =>
    rw [hfind] at h
    dsimp only at h
    by_cases hflag : a.isSummarizing
    · rw [if_pos hflag] at h
      exact absurd (Prod.mk.injEq .. ▸ h).2 (by simp)
    · rw [if_neg hflag] at h
      obtain ⟨hs₁, -⟩ := Prod.mk.injEq .. ▸ h
      have hfind₁ : s₁.articles.find? (fun x => x.id == articleId) =
          some { a with isSummarizing := true } := by
        rw [← hs₁]
        rw [find?_updateFirst (fun x => x.id == articleId)
          (fun x => { x with isSummarizing := true }) (fun x => rfl) s.articles, hfind]
        rfl
      unfold handleSummarizeStart
      rw [hfind₁]
      rfl

/-- Witness for C2: the first invocation on `"a1"` in `stateA` issues a call;
the second invocation on the resulting state returns `none` and leaves the
state untouched. -/
theorem claim_C2_witness :
    handleSummarizeStart "a1" (handleSummarizeStart "a1" stateA).1 =
      ((handleSummarizeStart "a1" stateA).1, none) :=
  claim_C2_second_summarize_rejected "a1" stateA (handleSummarizeStart "a1" stateA).1
    { prompt := mkPrompt artA, model := geminiModel } (by decide)

/-- Claim C3: when the summarization call for an article (present, not
already summarizing, without a summary) fails, after the whole summarize
operation the article is found unchanged — its `summary` still unset and its
`isSummarizing` flag false — the failure was surfaced via a blocking alert,
and the state was persisted (the stored snapshot equals the final list). -/
theorem claim_C3_failure_clears_flag_and_persists (articleId : String) (s : AppState)
    (a : Article)
    (hfind : s.articles.find? (fun x => x.id == articleId) = some a)
    (hflag : a.isSummarizing = false)
    (hsum : a.summary = none) :
    (handleSummarizeFull articleId none s).articles.find? (fun x => x.id == articleId) =
      some a ∧
    (handleSummarizeFull articleId none s).storedArticles =
      some (handleSummarizeFull articleId none s).articles ∧
    (handleSummarizeFull articleId none s).alerts = s.alerts ++
      ["Could not summarize the article. Please check the console for details."] := by
  unfold handleSummarizeFull
  rw [handleSummarizeStart_issues articleId s a hfind hflag]
  refine ⟨?_, persistedMatches_handleSummarizeComplete articleId none _, ?_⟩
  · unfold handleSummarizeComplete
    rw [saveState_articles]
    rw [find?_updateFirst (fun x => x.id == articleId)
      (fun x => { x with isSummarizing := false }) (fun x => rfl)]
    rw [find?_updateFirst (fun x => x.id == articleId)
      (fun x => { x with isSummarizing := true }) (fun x => rfl), hfind]
    obtain ⟨i, t, c, src, sum, flag⟩ := a
    simp_all
  · unfold handleSummarizeComplete
    rw [saveState_alerts]

/-- Witness for C3: a failing summarization of `"a1"` in `stateA`. -/
theorem claim_C3_witness :
    (handleSummarizeFull "a1" none stateA).articles.find? (fun x => x.id == "a1") =
      some artA ∧
    (handleSummarizeFull "a1" none stateA).storedArticles =
      some (handleSummarizeFull "a1" none stateA).articles ∧
    (handleSummarizeFull "a1" none stateA).alerts = stateA.alerts ++
      ["Could not summarize the article. Please check the console for details."] :=
  claim_C3_failure_clears_flag_and_persists "a1" stateA artA (by decide) (by decide)
    (by decide)

/-- Counterexample for C5: the request actually issued for the article with
title `"A"` and content `"B"` carries the prompt of `index.tsx` line 104,
which says "Summarize the following web article …" and therefore differs
from the prompt string worded by the specification ("Summarize the following
article …"). -/
theorem claim_C5_counterexample :
    Option.map SummarizeRequest.prompt (handleSummarizeStart "a1" stateA).2 =
      some "Summarize the following web article in a concise paragraph:\n\n---\n\nTitle: A\n\nB" ∧
    "Summarize the following web article in a concise paragraph:\n\n---\n\nTitle: A\n\nB" ≠
      specPrompt "A" "B" := by
  constructor
  · rfl
  · decide

/-- Claim C5 as amended: in `index.tsx` the summarization request for an
article with title t and content c carries exactly the prompt "Summarize the
following web article in a concise paragraph:\n\n---\n\nTitle: " ++ t ++
"\n\n" ++ c (the word "web" is present, unlike the specification's wording),
together with the fixed model identifier "gemini-2.5-flash"; and on success
the article's summary is set to the whitespace-trimmed response text. -/
theorem claim_C5_amended_prompt_model_trim (articleId : String) (s : AppState)
    (a : Article) (responseText : String)
    (hfind : s.articles.find? (fun x => x.id == articleId) = some a)
    (hflag : a.isSummarizing = false) :
    (handleSummarizeStart articleId s).2 = some
      { prompt := "Summarize the following web article in a concise paragraph:\n\n---\n\nTitle: "
          ++ a.title ++ "\n\n" ++ a.content,
        model := "gemini-2.5-flash" } ∧
    (handleSummarizeFull articleId (some responseText) s).articles.find?
        (fun x => x.id == articleId) =
      some { a with isSummarizing := false, summary := some responseText.trim } := by
  constructor
  · rw [handleSummarizeStart_issues articleId s a hfind hflag]
    rfl
  · unfold handleSummarizeFull
    rw [handleSummarizeStart_issues articleId s a hfind hflag]
    unfold handleSummarizeComplete
    rw [saveState_articles]
    dsimp only
    rw [find?_updateFirst (fun x => x.id == articleId)
      (fun x => { x with isSummarizing := false }) (fun x => rfl)]
    rw [find?_updateFirst (fun x => x.id == articleId)
      (fun x => { x with summary := some responseText.trim }) (fun x => rfl)]
    rw [find?_updateFirst (fun x => x.id == articleId)
      (fun x => { x with isSummarizing := true }) (fun x => rfl), hfind]
    rfl

/-- Witness for the amended C5: summarizing `"a1"` in `stateA` with response
text `"  hi  "`; the summary becomes `"hi"`. -/
theorem claim_C5_witness :
    (handleSummarizeStart "a1" stateA).2 = some
      { prompt := "Summarize the following web article in a concise paragraph:\n\n---\n\nTitle: "
          ++ artA.title ++ "\n\n" ++ artA.content,
        model := "gemini-2.5-flash" } ∧
    (handleSummarizeFull "a1" (some "  hi  ") stateA).articles.find?
        (fun x => x.id == "a1") =
      some { artA with isSummarizing := false, summary := some "  hi  ".trim } :=
  claim_C5_amended_prompt_model_trim "a1" stateA artA "  hi  " (by decide) (by decide)

/-- Counterexample for C8: from the consistent, flag-clean state `stateA`, a
reachable sequence of event-loop steps — begin summarizing `"a1"`, then
remove an absent id while the call is outstanding — leaves the persisted
snapshot containing an article with `isSummarizing` true, because
`removeArticle` saves the in-memory list in which the flag is still set. -/
theorem claim_C8_counterexample :
    persistedMatches stateA ∧
    List.all stateA.articles flagClear = true ∧
    storedHasActiveFlag (runSteps [Op.summarizeBegin "a1", Op.remove "zz"] stateA) = true := by
  refine ⟨by decide, by decide, by decide⟩

/-- Claim C8 as amended: the `isSummarizing` flag is transient across
sessions: `loadState` forces it to false on every loaded article, so after
`load()` no article in the loaded list has the flag set — although a
persistence write occurring while a summarization call is outstanding can
store articles whose flag is true. -/
theorem claim_C8_amended_load_resets_flag (s : AppState) (l : List Article)
    (hstored : s.storedArticles = some l) :
    List.all (loadState s).articles flagClear = true := by
  rw [loadState_articles s l hstored, List.all_eq_true]
  intro a ha
  rw [List.mem_map] at ha
  obtain ⟨b, -, rfl⟩ := ha
  rfl

/-- Witness for the amended C8: loading `stateDirty`, whose stored snapshot
holds an article with the flag stuck at true, yields a list whose every
article has the flag false. -/
theorem claim_C8_witness :
    List.all (loadState stateDirty).articles flagClear = true :=
  claim_C8_amended_load_resets_flag stateDirty [{ artA with isSummarizing := true }] rfl

end Newsreader
